import Mathlib

/-!
Shallow embedding of the user-book association service of NextChapterAi
(src/api/database/services/usersBooks.service.ts) together with the
UsersBooks model schema (Sequelize model definition). Dates are modelled
as integer timestamps, the database as lists of rows, and the external
Google Books metadata provider as a function from quick links to results.
Thrown JavaScript values are modelled by `Thrown`: either an Error
carrying a message, or a non-Error value.
-/

namespace NextChapter

/-- The nested volumeInfo object of a Google Books response; only the
title field is inspected by the service (bookDetails.volumeInfo?.title). -/
structure VolumeInfo where
  title : String
  deriving DecidableEq

/-- A Google Books API response; volumeInfo may be absent. -/
structure GoogleBooksApiResponse where
  volumeInfo : Option VolumeInfo
  deriving DecidableEq

/-- A row of the books table: id (primary key), quickLink, and the cached
metadata blob bookDetails (nullable). -/
structure Book where
  id : Nat
  quickLink : String
  bookDetails : Option GoogleBooksApiResponse
  deriving DecidableEq

/-- A row of the users_books table, per the Sequelize model: id (primary
key, autoincrement), userId, bookId, optional userRating, optional
dateStarted and dateFinished (timestamps as Int), optional userNotes.
The service also passes an import flag at creation; it is kept here as
importFlag since import is a reserved word. -/
structure UsersBooksRow where
  id : Nat
  userId : Nat
  bookId : Nat
  userRating : Option Int
  dateStarted : Option Int
  dateFinished : Option Int
  userNotes : Option String
  importFlag : Bool
  deriving DecidableEq

/-- The persistent state: the books table, the users_books table, and the
next autoincrement id for users_books. -/
structure DB where
  books : List Book
  usersBooks : List UsersBooksRow
  nextId : Nat
  deriving DecidableEq

/-- A thrown JavaScript value: an Error instance with its message, or any
non-Error value. -/
inductive Thrown where
  | err (msg : String)
  | nonError
  deriving DecidableEq

/-- The catch block used by every service operation:
if (error instanceof Error) throw new Error(error.message)
else throw new Error('An unknown error occurred'). -/
def wrapCatch : Thrown → Thrown
  | .err m => .err m
  | .nonError => .err "An unknown error occurred"

/-- Result of an async service call: resolved value or thrown value. -/
inductive SResult (α : Type) where
  | ok (val : α)
  | thrown (e : Thrown)
  deriving DecidableEq

/-- The external metadata provider (bookModule.getFromBookQuickLink):
given a quick link, a metadata record or a thrown failure. -/
def Provider : Type := String → SResult GoogleBooksApiResponse

/-- Staleness test of the list operation, from the source condition
(!bookDetails || !bookDetails.volumeInfo?.title): the blob is absent, or
volumeInfo is absent, or the title is the empty string (falsy). -/
def staleDetails : Option GoogleBooksApiResponse → Bool
  | none => true
  | some d =>
    match d.volumeInfo with
    | none => true
    | some v => v.title == ""

/-- Point lookup of a book by primary key (Book.findByPk and the join
target of the include clauses). -/
def DB.findBook (db : DB) (bookId : Nat) : Option Book :=
  db.books.find? (fun b => b.id == bookId)

/-- Instance update of one Book row (userBook.book.update({ bookDetails })):
the row with the given primary key gets the new bookDetails. -/
def DB.updateBookDetails (db : DB) (bookId : Nat)
    (d : Option GoogleBooksApiResponse) : DB :=
  let newBooks := db.books.map
    (fun b => if b.id == bookId then { b with bookDetails := d } else b)
  { db with books := newBooks }

/-- UsersBooks.findOne({ where: { userId, bookId } }). -/
def DB.findAssocByPair (db : DB) (userId bookId : Nat) : Option UsersBooksRow :=
  db.usersBooks.find? (fun r => r.userId == userId && r.bookId == bookId)

/-- UsersBooks.findOne({ where: { userId, id } }). -/
def DB.findAssocById (db : DB) (userId assocId : Nat) : Option UsersBooksRow :=
  db.usersBooks.find? (fun r => r.userId == userId && r.id == assocId)

/-- Shape of the book object returned by the list operation:
{ ...userBook.book.toJSON(), bookDetails } — the book fields with the
(possibly refreshed) metadata nested under bookDetails. -/
structure ListBookOut where
  id : Nat
  quickLink : String
  bookDetails : Option GoogleBooksApiResponse
  deriving DecidableEq

/-- One element of the list operation output:
{ ...userBook.toJSON(), book: ... }. -/
structure ListEntry where
  assoc : UsersBooksRow
  book : ListBookOut
  deriving DecidableEq

/-- Shape of the book object returned by the single-get operation:
{ ...book.toJSON(), ...bookDetails } — the book fields, the cached
bookDetails field untouched, and the fields of the freshly fetched
response (its volumeInfo) spread at top level. -/
structure SingleBookOut where
  id : Nat
  quickLink : String
  bookDetails : Option GoogleBooksApiResponse
  volumeInfo : Option VolumeInfo
  deriving DecidableEq

/-- The single-get operation output record. -/
structure SingleEntry where
  assoc : UsersBooksRow
  book : SingleBookOut
  deriving DecidableEq

/-- The list-operation entry built for one association row. -/
def mkListEntry (row : UsersBooksRow) (b : Book)
    (d : Option GoogleBooksApiResponse) : ListEntry :=
  { assoc := row, book := { id := b.id, quickLink := b.quickLink, bookDetails := d } }

/-- Per-association body of the Promise.all map in getBooksForUser:
read the cached blob of the joined book; when stale, fetch from the
provider, persist onto the Book row, and return the entry with the fresh
metadata; otherwise return the entry with the cached metadata. The Nat
counts provider fetches performed. -/
def processUserBook (provider : Provider) (db : DB) (row : UsersBooksRow)
    (b : Book) : SResult (ListEntry × DB × Nat) :=
  if staleDetails b.bookDetails then
    match provider b.quickLink with
    | .thrown t => .thrown t
    | .ok d => .ok (mkListEntry row b (some d), db.updateBookDetails b.id (some d), 1)
  else
    .ok (mkListEntry row b b.bookDetails, db, 0)

/-- Folds processUserBook over the association rows joined with their
snapshot Book rows, threading the database for the write-backs and
accumulating the fetch count. A missing joined book is a TypeError on
the null book object. -/
def getBooksForUserAux (provider : Provider) :
    List (UsersBooksRow × Option Book) → DB → SResult (List ListEntry × DB × Nat)
  | [], db => .ok ([], db, 0)
  | (_, none) :: _, _ => .thrown (.err "Cannot read properties of null")
  | (row, some b) :: rest, db =>
    match processUserBook provider db row b with
    | .thrown t => .thrown t
    | .ok (e, db1, n) =>
      match getBooksForUserAux provider rest db1 with
      | .thrown t => .thrown t
      | .ok (es, db2, m) => .ok (e :: es, db2, n + m)

/-- getBooksForUser: load all association rows of the user joined with
their books (a snapshot of the initial database), refresh each stale
cached blob through the provider with write-back, and return the merged
entries; any thrown value passes through the catch wrapper. -/
def getBooksForUser (provider : Provider) (userId : Nat) (db : DB) :
    SResult (List ListEntry × DB × Nat) :=
  match getBooksForUserAux provider
      ((db.usersBooks.filter (fun r => r.userId == userId)).map
        (fun r => (r, db.findBook r.bookId))) db with
  | .thrown t => .thrown (wrapCatch t)
  | .ok res => .ok res

/-- getBookForUser: find the association row scoped to (userId, id);
null when absent; otherwise always fetch fresh metadata from the
provider and spread it over the book fields. The Nat counts provider
fetches. No write-back occurs on this path. -/
def getBookForUser (provider : Provider) (userId bookId : Nat) (db : DB) :
    SResult (Option SingleEntry × Nat) :=
  match db.findAssocById userId bookId with
  | none => .ok (none, 0)
  | some row =>
    match db.findBook row.bookId with
    | none => .thrown (wrapCatch (.err "Cannot read properties of null"))
    | some b =>
      match provider b.quickLink with
      | .thrown t => .thrown (wrapCatch t)
      | .ok d =>
        .ok (some { assoc := row,
                    book := { id := b.id, quickLink := b.quickLink,
                              bookDetails := b.bookDetails,
                              volumeInfo := d.volumeInfo } }, 1)

/-- userRating !== null && userRating > 10 (the add-path rating check). -/
def ratingAboveTen : Option Int → Bool
  | some r => decide (r > 10)
  | none => false

/-- userRating !== null && (userRating < 1 || userRating > 10) (the
update-path rating check). -/
def ratingOutOfRange : Option Int → Bool
  | some r => decide (r < 1) || decide (r > 10)
  | none => false

/-- dateStarted && dateFinished && dateStarted > dateFinished. -/
def dateOrderBad : Option Int → Option Int → Bool
  | some ds, some df => decide (ds > df)
  | _, _ => false

/-- dateStarted && dateStarted > new Date(). -/
def dateInFuture : Option Int → Int → Bool
  | some ds, now => decide (ds > now)
  | none, _ => false

/-- userRating ? userRating : null — the falsy number 0 becomes null. -/
def coerceRating : Option Int → Option Int
  | some r => if r == 0 then none else some r
  | none => none

/-- userNotes?.length ? userNotes : null — absent or empty notes become
null. -/
def coerceNotes : Option String → Option String
  | some s => if s.length == 0 then none else some s
  | none => none

/-- Sequelize model validation of userRating (validate: min 1, max 10),
run on the attributes passed to create or instance update. -/
def modelRatingOk : Option Int → Bool
  | none => true
  | some r => decide (1 ≤ r) && decide (r ≤ 10)

/-- Sequelize model validation of userNotes (validate: len [1, 1000]). -/
def modelNotesOk : Option String → Bool
  | none => true
  | some s => decide (1 ≤ s.length) && decide (s.length ≤ 1000)

/-- The row passed to UsersBooks.create by addBookToUser: the supplied
fields with falsy coercion of rating and notes, the autoincrement id. -/
def createdRow (userId bookId : Nat) (userRating : Option Int)
    (dateStarted dateFinished : Option Int) (userNotes : Option String)
    (importBook : Bool) (nextId : Nat) : UsersBooksRow :=
  { id := nextId, userId := userId, bookId := bookId,
    userRating := coerceRating userRating,
    dateStarted := dateStarted, dateFinished := dateFinished,
    userNotes := coerceNotes userNotes, importFlag := importBook }

/-- Row insertion: the new row is appended and the autoincrement id of
the users_books table advances. -/
def DB.pushRow (db : DB) (row : UsersBooksRow) : DB :=
  { db with usersBooks := db.usersBooks ++ [row], nextId := db.nextId + 1 }

/-- The three service-level validation checks of addBookToUser, in
source order, all passing. -/
def addChecksPass (userRating dateStarted dateFinished : Option Int)
    (now : Int) : Bool :=
  !ratingAboveTen userRating && !dateOrderBad dateStarted dateFinished &&
    !dateInFuture dateStarted now

/-- The three service-level validation checks of updateUserBook, in
source order, all passing. -/
def updateChecksPass (userRating dateStarted dateFinished : Option Int)
    (now : Int) : Bool :=
  !ratingOutOfRange userRating && !dateOrderBad dateStarted dateFinished &&
    !dateInFuture dateStarted now

/-- addBookToUser: the three validation checks in order (all outside the
try block, before any persistence access), then Book.findByPk, then the
idempotency lookup on (userId, bookId), then create with falsy-coercion
of rating and notes and model-level validation, returning the created
row (the source re-fetches it joined with its book; the row data is
identical). The new row is appended and the autoincrement id advanced. -/
def addBookToUser (userId bookId : Nat) (userRating : Option Int)
    (dateStarted dateFinished : Option Int) (userNotes : Option String)
    (importBook : Bool) (now : Int) (db : DB) : SResult (UsersBooksRow × DB) :=
  if ratingAboveTen userRating then
    .thrown (.err "User rating must be between 1 and 10")
  else if dateOrderBad dateStarted dateFinished then
    .thrown (.err "Date started must be before date finished")
  else if dateInFuture dateStarted now then
    .thrown (.err "Date started must be in the past")
  else
    match db.findBook bookId with
    | none => .thrown (.err "Book does not exist")
    | some _ =>
      match db.findAssocByPair userId bookId with
      | some existing => .ok (existing, db)
      | none =>
        let row : UsersBooksRow := createdRow userId bookId userRating
          dateStarted dateFinished userNotes importBook db.nextId
        if modelRatingOk row.userRating && modelNotesOk row.userNotes then
          .ok (row, db.pushRow row)
        else
          .thrown (wrapCatch (.err "Validation error"))

/-- updateUserBook: the three validation checks in order (both rating
bounds on this path), then the lookup scoped to (userId, id); absence is
the not-found rejection (thrown inside the try block, so routed through
the catch wrapper); otherwise all four mutable fields are overwritten
with the supplied values (full replace) under model-level validation. -/
def updateUserBook (userId bookId : Nat) (userRating : Option Int)
    (dateStarted dateFinished : Option Int) (userNotes : Option String)
    (now : Int) (db : DB) : SResult (UsersBooksRow × DB) :=
  if ratingOutOfRange userRating then
    .thrown (.err "User rating must be between 1 and 10")
  else if dateOrderBad dateStarted dateFinished then
    .thrown (.err "Date started must be before date finished")
  else if dateInFuture dateStarted now then
    .thrown (.err "Date started must be in the past")
  else
    match db.findAssocById userId bookId with
    | none => .thrown (wrapCatch (.err "Book not found for this user"))
    | some row =>
      let row2 : UsersBooksRow :=
        { row with userRating := userRating, dateStarted := dateStarted,
                   dateFinished := dateFinished, userNotes := userNotes }
      let newRows := db.usersBooks.map
        (fun r => if r.id == row.id then row2 else r)
      if modelRatingOk userRating && modelNotesOk userNotes then
        .ok (row2, { db with usersBooks := newRows })
      else
        .thrown (wrapCatch (.err "Validation error"))

/-- deleteBookFromUser: UsersBooks.destroy({ where: { userId, id } });
zero affected rows is the not-found rejection (thrown inside the try
block). -/
def deleteBookFromUser (userId bookId : Nat) (db : DB) : SResult DB :=
  if (db.usersBooks.filter
      (fun r => !(r.userId == userId && r.id == bookId))).length ==
      db.usersBooks.length then
    .thrown (wrapCatch (.err "Book not found"))
  else
    .ok { db with usersBooks := db.usersBooks.filter (fun r => !(r.userId == userId && r.id == bookId)) }

/-- The messages classified as NotFoundError by the specification
taxonomy: a referenced book or association does not exist. -/
def isNotFoundMessage : Thrown → Bool
  | .err m => m == "Book does not exist" || m == "Book not found for this user"
      || m == "Book not found"
  | .nonError => false

/-- An empty database: no books, no associations. -/
def emptyDB : DB := { books := [], usersBooks := [], nextId := 1 }

/-- A catalogue with one book (id 5, null cached metadata), no
associations. -/
def bookOnlyDB : DB :=
  { books := [{ id := 5, quickLink := "q5", bookDetails := none }],
    usersBooks := [], nextId := 1 }

/-- A metadata response with a non-empty title (valid per the staleness
test). -/
def sampleResp : GoogleBooksApiResponse := { volumeInfo := some { title := "Dune" } }

/-- A provider that always succeeds with sampleResp. -/
def okProvider : Provider := fun _ => .ok sampleResp

/-- A provider that always fails with an Error carrying a distinctive
upstream message. -/
def connRefusedProvider : Provider := fun _ => .thrown (.err "ECONNREFUSED")

/-- One association (id 1) of user 1 to book 5. -/
def sampleRow : UsersBooksRow :=
  { id := 1, userId := 1, bookId := 5, userRating := some 8,
    dateStarted := none, dateFinished := none, userNotes := none,
    importFlag := false }

/-- Book 5 with null cached metadata plus the single association of
user 1. -/
def staleDB : DB :=
  { books := [{ id := 5, quickLink := "q5", bookDetails := none }],
    usersBooks := [sampleRow], nextId := 2 }

/-- staleDB after the cached metadata of book 5 is refreshed to
sampleResp. -/
def freshDB : DB := staleDB.updateBookDetails 5 (some sampleResp)

/-- An association (id 7) that belongs to user 2. -/
def otherUserRow : UsersBooksRow :=
  { id := 7, userId := 2, bookId := 5, userRating := none,
    dateStarted := none, dateFinished := none, userNotes := none,
    importFlag := false }

/-- A database where association id 7 exists globally but belongs to
user 2, not user 1. -/
def crossUserDB : DB :=
  { books := [{ id := 5, quickLink := "q5", bookDetails := none }],
    usersBooks := [otherUserRow], nextId := 8 }

theorem addChecksPass_eq (ur ds df : Option Int) (now : Int) :
    addChecksPass ur ds df now = true ↔
      ratingAboveTen ur = false ∧ dateOrderBad ds df = false ∧
        dateInFuture ds now = false := by
  simp [addChecksPass, Bool.and_eq_true, Bool.not_eq_true', and_assoc]

theorem updateChecksPass_eq (ur ds df : Option Int) (now : Int) :
    updateChecksPass ur ds df now = true ↔
      ratingOutOfRange ur = false ∧ dateOrderBad ds df = false ∧
        dateInFuture ds now = false := by
  simp [updateChecksPass, Bool.and_eq_true, Bool.not_eq_true', and_assoc]

theorem addBookToUser_creates (u bId : Nat) (ur ds df : Option Int)
    (n : Option String) (imp : Bool) (now : Int) (db : DB) (bk : Book)
    (hc : addChecksPass ur ds df now = true)
    (hb : db.findBook bId = some bk)
    (hno : db.findAssocByPair u bId = none)
    (hr : modelRatingOk (coerceRating ur) = true)
    (hn : modelNotesOk (coerceNotes n) = true) :
    addBookToUser u bId ur ds df n imp now db =
      .ok (createdRow u bId ur ds df n imp db.nextId,
           db.pushRow (createdRow u bId ur ds df n imp db.nextId)) := by
  obtain ⟨h1, h2, h3⟩ := (addChecksPass_eq ur ds df now).mp hc
  simp [addBookToUser, h1, h2, h3, hb, hno, createdRow, hr, hn]

/-- C3 (counterexample): on a database with no association (1, 999), an
update with the invalid rating 11 is rejected with the validation
message, not the not-found message, because validation runs before the
existence lookup; the claim that a missing association always yields
NotFoundError regardless of payload validity is therefore false. -/
theorem updateUserBook_invalid_payload_counterexample :
    emptyDB.findAssocById 1 999 = none ∧
    updateUserBook 1 999 (some 11) none none none 0 emptyDB =
      .thrown (.err "User rating must be between 1 and 10") ∧
    updateUserBook 1 999 (some 11) none none none 0 emptyDB ≠
      .thrown (.err "Book not found for this user") := by
  decide

/-- C3 (amended): for every payload that passes the three validation
checks of updateUserBook, if no association exists for
(userId, associationId) then the call rejects with the NotFoundError
message; an invalid payload is instead rejected by the validation check
that precedes the existence lookup. -/
theorem updateUserBook_missing_not_found (u aId : Nat) (ur ds df : Option Int)
    (n : Option String) (now : Int) (db : DB)
    (hc : updateChecksPass ur ds df now = true)
    (hno : db.findAssocById u aId = none) :
    updateUserBook u aId ur ds df n now db =
      .thrown (.err "Book not found for this user") ∧
    isNotFoundMessage (.err "Book not found for this user") = true := by
  obtain ⟨h1, h2, h3⟩ := (updateChecksPass_eq ur ds df now).mp hc
  refine ⟨?_, by decide⟩
  simp [updateUserBook, h1, h2, h3, hno, wrapCatch]

theorem updateUserBook_missing_not_found_witness :
    updateChecksPass (some 11) none none 0 = false ∧
    updateUserBook 1 999 (some 7) none none none 0 emptyDB =
      .thrown (.err "Book not found for this user") :=
  ⟨by decide,
   (updateUserBook_missing_not_found 1 999 (some 7) none none none 0 emptyDB
      (by decide) (by decide)).1⟩

/-- C4: userRating 11 is rejected by addBookToUser and by updateUserBook
with the rating message; userRating 0 is rejected by updateUserBook
(both bounds checked there) but not by addBookToUser (only the upper
bound is checked on the add path), which goes on to create the row. -/
theorem rating_bounds_asymmetry (u bId aId : Nat) (ds df : Option Int)
    (n : Option String) (imp : Bool) (now : Int) (db : DB) (bk : Book)
    (hdo : dateOrderBad ds df = false) (hdf : dateInFuture ds now = false)
    (hb : db.findBook bId = some bk) (hno : db.findAssocByPair u bId = none)
    (hn : modelNotesOk (coerceNotes n) = true) :
    addBookToUser u bId (some 11) ds df n imp now db =
      .thrown (.err "User rating must be between 1 and 10") ∧
    updateUserBook u aId (some 11) ds df n now db =
      .thrown (.err "User rating must be between 1 and 10") ∧
    updateUserBook u aId (some 0) ds df n now db =
      .thrown (.err "User rating must be between 1 and 10") ∧
    addBookToUser u bId (some 0) ds df n imp now db =
      .ok (createdRow u bId (some 0) ds df n imp db.nextId,
           db.pushRow (createdRow u bId (some 0) ds df n imp db.nextId)) := by
  refine ⟨?_, ?_, ?_, ?_⟩
  · simp [addBookToUser, ratingAboveTen]
  · simp [updateUserBook, ratingOutOfRange]
  · simp [updateUserBook, ratingOutOfRange]
  · exact addBookToUser_creates u bId (some 0) ds df n imp now db bk
      (by simp [addChecksPass, ratingAboveTen, hdo, hdf]) hb hno
      (by decide) hn

theorem rating_bounds_asymmetry_witness :
    addBookToUser 1 5 (some 11) none none none false 0 bookOnlyDB =
      .thrown (.err "User rating must be between 1 and 10") ∧
    updateUserBook 1 1 (some 11) none none none 0 bookOnlyDB =
      .thrown (.err "User rating must be between 1 and 10") ∧
    updateUserBook 1 1 (some 0) none none none 0 bookOnlyDB =
      .thrown (.err "User rating must be between 1 and 10") ∧
    addBookToUser 1 5 (some 0) none none none false 0 bookOnlyDB =
      .ok (createdRow 1 5 (some 0) none none none false 1,
           bookOnlyDB.pushRow (createdRow 1 5 (some 0) none none none false 1)) :=
  rating_bounds_asymmetry 1 5 1 none none none false 0 bookOnlyDB
    { id := 5, quickLink := "q5", bookDetails := none }
    (by decide) (by decide) (by decide) (by decide) (by decide)

/-- C5: the four rejection checks of addBookToUser fire in source order,
the first failing check determining the message; the first three hold
for every database (including one where the book is absent), so they
precede any persistence access, and the book-existence check fires only
when all three earlier checks pass. -/
theorem addBookToUser_validation_order :
    (∀ (u bId : Nat) (r : Int) (ds df : Option Int) (n : Option String)
        (imp : Bool) (now : Int) (db : DB), r > 10 →
        addBookToUser u bId (some r) ds df n imp now db =
          .thrown (.err "User rating must be between 1 and 10")) ∧
    (∀ (u bId : Nat) (ur : Option Int) (ds df : Int) (n : Option String)
        (imp : Bool) (now : Int) (db : DB),
        ratingAboveTen ur = false → ds > df →
        addBookToUser u bId ur (some ds) (some df) n imp now db =
          .thrown (.err "Date started must be before date finished")) ∧
    (∀ (u bId : Nat) (ur ds df : Option Int) (n : Option String)
        (imp : Bool) (now : Int) (db : DB),
        ratingAboveTen ur = false → dateOrderBad ds df = false →
        dateInFuture ds now = true →
        addBookToUser u bId ur ds df n imp now db =
          .thrown (.err "Date started must be in the past")) ∧
    (∀ (u bId : Nat) (ur ds df : Option Int) (n : Option String)
        (imp : Bool) (now : Int) (db : DB),
        addChecksPass ur ds df now = true → db.findBook bId = none →
        addBookToUser u bId ur ds df n imp now db =
          .thrown (.err "Book does not exist")) := by
  refine ⟨?_, ?_, ?_, ?_⟩
  · intro u bId r ds df n imp now db hr
    simp [addBookToUser, ratingAboveTen, hr]
  · intro u bId ur ds df n imp now db h1 h2
    simp [addBookToUser, h1, dateOrderBad, h2]
  · intro u bId ur ds df n imp now db h1 h2 h3
    simp [addBookToUser, h1, h2, h3]
  · intro u bId ur ds df n imp now db hc hb
    obtain ⟨h1, h2, h3⟩ := (addChecksPass_eq ur ds df now).mp hc
    simp [addBookToUser, h1, h2, h3, hb]

theorem addBookToUser_validation_order_witness :
    addBookToUser 1 5 (some 11) (some 30) (some 3) none false 0 emptyDB =
      .thrown (.err "User rating must be between 1 and 10") ∧
    addBookToUser 1 5 (some 8) (some 30) (some 3) none false 0 emptyDB =
      .thrown (.err "Date started must be before date finished") ∧
    addBookToUser 1 5 (some 8) (some 30) none none false 20 emptyDB =
      .thrown (.err "Date started must be in the past") ∧
    addBookToUser 1 5 (some 8) none none none false 20 emptyDB =
      .thrown (.err "Book does not exist") :=
  ⟨addBookToUser_validation_order.1 1 5 11 (some 30) (some 3) none false 0
      emptyDB (by decide),
   addBookToUser_validation_order.2.1 1 5 (some 8) 30 3 none false 0
      emptyDB (by decide) (by decide),
   addBookToUser_validation_order.2.2.1 1 5 (some 8) (some 30) none none
      false 20 emptyDB (by decide) (by decide) (by decide),
   addBookToUser_validation_order.2.2.2 1 5 (some 8) none none none
      false 20 emptyDB (by decide) (by decide)⟩

/-- C9: when addBookToUser reaches row creation with userRating 0, the
falsy coercion userRating ? userRating : null stores null: the created
row has no rating, and the rating 0 is neither stored nor rejected. -/
theorem addBookToUser_rating_zero_stored_null (u bId : Nat)
    (ds df : Option Int) (n : Option String) (imp : Bool) (now : Int)
    (db : DB) (bk : Book)
    (hdo : dateOrderBad ds df = false) (hdf : dateInFuture ds now = false)
    (hb : db.findBook bId = some bk) (hno : db.findAssocByPair u bId = none)
    (hn : modelNotesOk (coerceNotes n) = true) :
    coerceRating (some 0) = none ∧
    addBookToUser u bId (some 0) ds df n imp now db =
      .ok (createdRow u bId (some 0) ds df n imp db.nextId,
           db.pushRow (createdRow u bId (some 0) ds df n imp db.nextId)) ∧
    (createdRow u bId (some 0) ds df n imp db.nextId).userRating = none := by
  refine ⟨by decide, ?_, by simp [createdRow, coerceRating]⟩
  exact addBookToUser_creates u bId (some 0) ds df n imp now db bk
    (by simp [addChecksPass, ratingAboveTen, hdo, hdf]) hb hno
    (by decide) hn

theorem findRow_pushRow (db : DB) (row : UsersBooksRow) (p : UsersBooksRow → Bool)
    (hno : db.usersBooks.find? p = none) (hp : p row = true) :
    (db.pushRow row).usersBooks.find? p = some row := by
  simp only [DB.pushRow, List.find?_append, hno, Option.none_or]
  exact List.find?_cons_of_pos _ hp

/-- C2: addBookToUser is idempotent on (userId, bookId): with no prior
association and a payload passing creation, the first call creates
exactly one row; a second call with the same pair and any payload that
passes the validation checks returns the same row with the same id,
performs no insert, and leaves the database exactly as after the first
call (no field updates even for different supplied values). -/
theorem addBookToUser_idempotent (u bId : Nat)
    (ur1 ds1 df1 : Option Int) (n1 : Option String) (imp1 : Bool) (now1 : Int)
    (ur2 ds2 df2 : Option Int) (n2 : Option String) (imp2 : Bool) (now2 : Int)
    (db : DB) (bk : Book)
    (hc1 : addChecksPass ur1 ds1 df1 now1 = true)
    (hc2 : addChecksPass ur2 ds2 df2 now2 = true)
    (hb : db.findBook bId = some bk)
    (hno : db.findAssocByPair u bId = none)
    (hr : modelRatingOk (coerceRating ur1) = true)
    (hn : modelNotesOk (coerceNotes n1) = true) :
    addBookToUser u bId ur1 ds1 df1 n1 imp1 now1 db =
      .ok (createdRow u bId ur1 ds1 df1 n1 imp1 db.nextId,
           db.pushRow (createdRow u bId ur1 ds1 df1 n1 imp1 db.nextId)) ∧
    addBookToUser u bId ur2 ds2 df2 n2 imp2 now2
        (db.pushRow (createdRow u bId ur1 ds1 df1 n1 imp1 db.nextId)) =
      .ok (createdRow u bId ur1 ds1 df1 n1 imp1 db.nextId,
           db.pushRow (createdRow u bId ur1 ds1 df1 n1 imp1 db.nextId)) ∧
    (db.pushRow (createdRow u bId ur1 ds1 df1 n1 imp1 db.nextId)).usersBooks.length =
      db.usersBooks.length + 1 := by
  obtain ⟨h1, h2, h3⟩ := (addChecksPass_eq ur2 ds2 df2 now2).mp hc2
  refine ⟨addBookToUser_creates u bId ur1 ds1 df1 n1 imp1 now1 db bk
    hc1 hb hno hr hn, ?_, by simp [DB.pushRow]⟩
  have hb2 : (db.pushRow (createdRow u bId ur1 ds1 df1 n1 imp1 db.nextId)).findBook
      bId = some bk := hb
  have hfound : (db.pushRow (createdRow u bId ur1 ds1 df1 n1 imp1 db.nextId)).findAssocByPair
      u bId = some (createdRow u bId ur1 ds1 df1 n1 imp1 db.nextId) := by
    refine findRow_pushRow db _ _ hno ?_
    simp [createdRow]
  simp [addBookToUser, h1, h2, h3, hb2, hfound]

theorem addBookToUser_idempotent_witness :
    addBookToUser 1 5 (some 8) none none none false 0 bookOnlyDB =
      .ok (createdRow 1 5 (some 8) none none none false 1,
           bookOnlyDB.pushRow (createdRow 1 5 (some 8) none none none false 1)) ∧
    addBookToUser 1 5 (some 3) (some (-5)) (some (-1)) (some "notes") true 0
        (bookOnlyDB.pushRow (createdRow 1 5 (some 8) none none none false 1)) =
      .ok (createdRow 1 5 (some 8) none none none false 1,
           bookOnlyDB.pushRow (createdRow 1 5 (some 8) none none none false 1)) ∧
    (bookOnlyDB.pushRow (createdRow 1 5 (some 8) none none none false 1)).usersBooks.length =
      bookOnlyDB.usersBooks.length + 1 :=
  addBookToUser_idempotent 1 5 (some 8) none none none false 0
    (some 3) (some (-5)) (some (-1)) (some "notes") true 0 bookOnlyDB
    { id := 5, quickLink := "q5", bookDetails := none }
    (by decide) (by decide) (by decide) (by decide) (by decide) (by decide)

/-- C6: getBookForUser performs exactly one provider fetch on every call
that finds the association, with no hypothesis on the cached blob (so
also when the cache is valid, unlike the list path), and overlays the
fetched metadata onto the top-level book fields of the returned record. -/
theorem getBookForUser_always_fetches (db : DB) (provider : Provider)
    (u aId : Nat) (row : UsersBooksRow) (b : Book) (d : GoogleBooksApiResponse)
    (hrow : db.findAssocById u aId = some row)
    (hb : db.findBook row.bookId = some b)
    (hp : provider b.quickLink = .ok d) :
    getBookForUser provider u aId db =
      .ok (some { assoc := row,
                  book := { id := b.id, quickLink := b.quickLink,
                            bookDetails := b.bookDetails,
                            volumeInfo := d.volumeInfo } }, 1) := by
  simp [getBookForUser, hrow, hb, hp]

theorem getBookForUser_always_fetches_witness :
    staleDetails ((freshDB.findBook 5).bind Book.bookDetails) = false ∧
    getBookForUser okProvider 1 1 freshDB =
      .ok (some { assoc := sampleRow,
                  book := { id := 5, quickLink := "q5",
                            bookDetails := some sampleResp,
                            volumeInfo := some { title := "Dune" } } }, 1) :=
  ⟨by decide,
   getBookForUser_always_fetches freshDB okProvider 1 1 sampleRow
     { id := 5, quickLink := "q5", bookDetails := some sampleResp }
     sampleResp (by decide) (by decide) (by decide)⟩

/-- C7: deleteBookFromUser deletes only rows matching both userId and
associationId; when no row matches both (in particular when the
association exists but belongs to another user), it rejects with the
not-found message and, since the error is thrown, no new state is
produced; on success the surviving rows are exactly the non-matching
ones and the books table is untouched. -/
theorem deleteBookFromUser_scoped (u aId : Nat) (db : DB) :
    ((∀ r ∈ db.usersBooks, (r.userId == u && r.id == aId) = false) →
        deleteBookFromUser u aId db = .thrown (.err "Book not found") ∧
        isNotFoundMessage (.err "Book not found") = true) ∧
    (∀ db2 : DB, deleteBookFromUser u aId db = .ok db2 →
        db2.usersBooks =
          db.usersBooks.filter (fun r => !(r.userId == u && r.id == aId)) ∧
        db2.books = db.books ∧
        ∀ r ∈ db.usersBooks, (r.userId == u && r.id == aId) = false →
          r ∈ db2.usersBooks) := by
  constructor
  · intro h
    have hfilter : db.usersBooks.filter
        (fun r => !(r.userId == u && r.id == aId)) = db.usersBooks :=
      List.filter_eq_self.mpr (fun a ha => by
        show (!(a.userId == u && a.id == aId)) = true
        rw [h a ha]
        rfl)
    refine ⟨?_, by decide⟩
    unfold deleteBookFromUser
    rw [hfilter]
    simp [wrapCatch]
  · intro db2 h
    unfold deleteBookFromUser at h
    split at h
    · exact absurd h (by simp)
    · injection h with h
      subst h
      refine ⟨rfl, rfl, ?_⟩
      intro r hr hne
      simp only [List.mem_filter]
      exact ⟨hr, by rw [hne]; rfl⟩

theorem deleteBookFromUser_scoped_witness :
    (∀ r ∈ crossUserDB.usersBooks, (r.userId == 1 && r.id == 7) = false) ∧
    deleteBookFromUser 1 7 crossUserDB = .thrown (.err "Book not found") :=
  ⟨by decide,
   ((deleteBookFromUser_scoped 1 7 crossUserDB).1 (by decide)).1⟩

theorem find?_updateBook (l : List Book) (k : Nat)
    (d : Option GoogleBooksApiResponse) (b : Book)
    (h : l.find? (fun x => x.id == k) = some b) :
    (l.map (fun x => if x.id == k then { x with bookDetails := d } else x)).find?
        (fun x => x.id == k) = some { b with bookDetails := d } := by
  induction l with
  | nil => simp at h
  | cons a t ih =>
    by_cases ha : (a.id == k) = true
    · simp only [List.find?_cons, ha] at h
      injection h with h
      subst h
      simp only [List.map_cons, ha, if_true, List.find?_cons]
    · have hfalse : (a.id == k) = false := by simpa using ha
      simp only [List.find?_cons, hfalse] at h
      simp only [List.map_cons, hfalse, Bool.false_eq_true, if_false,
        List.find?_cons]
      exact ih h

theorem usersBooks_updateBookDetails (db : DB) (k : Nat)
    (d : Option GoogleBooksApiResponse) :
    (db.updateBookDetails k d).usersBooks = db.usersBooks := rfl

/-- C1: in getBooksForUser the provider is consulted for an association
exactly when the cached blob of its book is stale (absent, or with a
missing or empty nested title): a valid cache yields the entry with zero
fetches and an unchanged database; a stale cache yields exactly one
fetch whose result is persisted onto the Book row before the entry is
returned; and a second call on the now-valid cache performs zero
fetches. -/
theorem getBooksForUser_cache_policy (db : DB) (provider : Provider) (u : Nat)
    (row : UsersBooksRow) (b : Book) (d : GoogleBooksApiResponse)
    (hfilter : db.usersBooks.filter (fun r => r.userId == u) = [row])
    (hb : db.findBook row.bookId = some b)
    (hp : provider b.quickLink = .ok d) :
    (staleDetails b.bookDetails = false →
        getBooksForUser provider u db =
          .ok ([mkListEntry row b b.bookDetails], db, 0)) ∧
    (staleDetails b.bookDetails = true →
        getBooksForUser provider u db =
          .ok ([mkListEntry row b (some d)],
               db.updateBookDetails b.id (some d), 1) ∧
        (db.updateBookDetails b.id (some d)).findBook row.bookId =
          some { b with bookDetails := some d } ∧
        (staleDetails (some d) = false →
            getBooksForUser provider u (db.updateBookDetails b.id (some d)) =
              .ok ([mkListEntry row { b with bookDetails := some d } (some d)],
                   db.updateBookDetails b.id (some d), 0))) := by
  have hid : b.id = row.bookId := by
    simpa using List.find?_some hb
  constructor
  · intro hstale
    simp [getBooksForUser, hfilter, hb, getBooksForUserAux, processUserBook,
      hstale]
  · intro hstale
    have hpersist : (db.updateBookDetails b.id (some d)).findBook row.bookId =
        some { b with bookDetails := some d } := by
      have harg : db.updateBookDetails b.id (some d) =
          db.updateBookDetails row.bookId (some d) := by rw [hid]
      rw [harg]
      exact find?_updateBook db.books row.bookId (some d) b hb
    refine ⟨?_, hpersist, ?_⟩
    · simp [getBooksForUser, hfilter, hb, getBooksForUserAux, processUserBook,
        hstale, hp]
    · intro hfresh
      have hrows : (db.updateBookDetails b.id (some d)).usersBooks.filter
          (fun r => r.userId == u) = [row] := by
        rw [usersBooks_updateBookDetails]
        exact hfilter
      simp [getBooksForUser, hrows, hpersist, getBooksForUserAux,
        processUserBook, hfresh]

theorem getBooksForUser_cache_policy_witness :
    staleDetails ({ id := 5, quickLink := "q5",
                    bookDetails := none : Book }).bookDetails = true ∧
    staleDetails (some sampleResp) = false ∧
    (getBooksForUser okProvider 1 staleDB =
        .ok ([mkListEntry sampleRow { id := 5, quickLink := "q5", bookDetails := none }
                (some sampleResp)],
             staleDB.updateBookDetails 5 (some sampleResp), 1) ∧
      (staleDB.updateBookDetails 5 (some sampleResp)).findBook 5 =
        some { id := 5, quickLink := "q5", bookDetails := some sampleResp } ∧
      (staleDetails (some sampleResp) = false →
          getBooksForUser okProvider 1 (staleDB.updateBookDetails 5 (some sampleResp)) =
            .ok ([mkListEntry sampleRow
                    { id := 5, quickLink := "q5", bookDetails := some sampleResp }
                    (some sampleResp)],
                 staleDB.updateBookDetails 5 (some sampleResp), 0))) :=
  ⟨by decide, by decide,
   (getBooksForUser_cache_policy staleDB okProvider 1 sampleRow
      { id := 5, quickLink := "q5", bookDetails := none } sampleResp
      (by decide) (by decide) (by decide)).2 (by decide)⟩

/-- C10: the two read paths return differently shaped book objects: on
the same stale-cache state, getBookForUser spreads the fetched metadata
(its volumeInfo) into the top-level fields of the returned book while
its bookDetails field keeps the stale cached value, whereas
getBooksForUser nests the refreshed metadata under the bookDetails field
of its book object. -/
theorem get_shapes_asymmetry (db : DB) (provider : Provider) (u aId : Nat)
    (row : UsersBooksRow) (b : Book) (d : GoogleBooksApiResponse)
    (hrow : db.findAssocById u aId = some row)
    (hfilter : db.usersBooks.filter (fun r => r.userId == u) = [row])
    (hb : db.findBook row.bookId = some b)
    (hstale : staleDetails b.bookDetails = true)
    (hp : provider b.quickLink = .ok d) :
    getBookForUser provider u aId db =
      .ok (some { assoc := row,
                  book := { id := b.id, quickLink := b.quickLink,
                            bookDetails := b.bookDetails,
                            volumeInfo := d.volumeInfo } }, 1) ∧
    getBooksForUser provider u db =
      .ok ([{ assoc := row,
              book := { id := b.id, quickLink := b.quickLink,
                        bookDetails := some d } }],
           db.updateBookDetails b.id (some d), 1) := by
  constructor
  · simp [getBookForUser, hrow, hb, hp]
  · simp [getBooksForUser, hfilter, hb, getBooksForUserAux, processUserBook,
      hstale, hp, mkListEntry]

theorem get_shapes_asymmetry_witness :
    getBookForUser okProvider 1 1 staleDB =
      .ok (some { assoc := sampleRow,
                  book := { id := 5, quickLink := "q5",
                            bookDetails := none,
                            volumeInfo := some { title := "Dune" } } }, 1) ∧
    getBooksForUser okProvider 1 staleDB =
      .ok ([{ assoc := sampleRow,
              book := { id := 5, quickLink := "q5",
                        bookDetails := some sampleResp } }],
           staleDB.updateBookDetails 5 (some sampleResp), 1) :=
  get_shapes_asymmetry staleDB okProvider 1 1 sampleRow
    { id := 5, quickLink := "q5", bookDetails := none } sampleResp
    (by decide) (by decide) (by decide) (by decide) (by decide)

/-- C8 (counterexample): a provider failure whose Error message is
ECONNREFUSED surfaces from getBooksForUser with that same message, not
with the generic unexpected-error message: the original cause is
exposed to the caller, so the claim is false. -/
theorem upstream_error_exposed_counterexample :
    getBooksForUser connRefusedProvider 1 staleDB =
      .thrown (.err "ECONNREFUSED") ∧
    getBooksForUser connRefusedProvider 1 staleDB ≠
      .thrown (.err "An unknown error occurred") ∧
    getBookForUser connRefusedProvider 1 1 staleDB =
      .thrown (.err "ECONNREFUSED") := by
  decide

/-- C8 (amended): an upstream failure thrown as an Error instance is
re-thrown by the service catch blocks with its original message
preserved; only a thrown non-Error value is replaced by the generic
message, on the list path and on the single-get path alike. -/
theorem upstream_error_passthrough (db : DB) (provider : Provider) (u : Nat)
    (row : UsersBooksRow) (b : Book) (t : Thrown)
    (hfilter : db.usersBooks.filter (fun r => r.userId == u) = [row])
    (hb : db.findBook row.bookId = some b)
    (hstale : staleDetails b.bookDetails = true)
    (hp : provider b.quickLink = .thrown t) :
    getBooksForUser provider u db = .thrown (wrapCatch t) ∧
    (∀ m : String, wrapCatch (.err m) = .err m) ∧
    wrapCatch .nonError = .err "An unknown error occurred" ∧
    (∀ (u2 aId : Nat) (row2 : UsersBooksRow) (b2 : Book),
        db.findAssocById u2 aId = some row2 →
        db.findBook row2.bookId = some b2 →
        provider b2.quickLink = .thrown t →
        getBookForUser provider u2 aId db = .thrown (wrapCatch t)) := by
  refine ⟨?_, fun m => rfl, rfl, ?_⟩
  · simp [getBooksForUser, hfilter, hb, getBooksForUserAux, processUserBook,
      hstale, hp]
  · intro u2 aId row2 b2 hrow2 hb2 hp2
    simp [getBookForUser, hrow2, hb2, hp2]

theorem upstream_error_passthrough_witness :
    getBooksForUser connRefusedProvider 1 staleDB =
      .thrown (wrapCatch (.err "ECONNREFUSED")) ∧
    wrapCatch (.err "ECONNREFUSED") = .err "ECONNREFUSED" ∧
    wrapCatch .nonError = .err "An unknown error occurred" :=
  have h := upstream_error_passthrough staleDB connRefusedProvider 1 sampleRow
    { id := 5, quickLink := "q5", bookDetails := none } (.err "ECONNREFUSED")
    (by decide) (by decide) (by decide) (by decide)
  ⟨h.1, h.2.1 "ECONNREFUSED", h.2.2.1⟩

theorem addBookToUser_rating_zero_stored_null_witness :
    coerceRating (some 0) = none ∧
    addBookToUser 1 5 (some 0) none none none false 0 bookOnlyDB =
      .ok (createdRow 1 5 (some 0) none none none false 1,
           bookOnlyDB.pushRow (createdRow 1 5 (some 0) none none none false 1)) ∧
    (createdRow 1 5 (some 0) none none none false 1).userRating = none :=
  addBookToUser_rating_zero_stored_null 1 5 none none none false 0 bookOnlyDB
    { id := 5, quickLink := "q5", bookDetails := none }
    (by decide) (by decide) (by decide) (by decide) (by decide)

end NextChapter
